import Mathlib

/-!
Verification of the print-execution pipeline of the hacks25 repository.

The pipeline's code lives in the repository's design documents as Python:
`QueueManager`, `process_print_queue`, `BambuAdapter._map_status` and the
`PrintTask` data model in `src/PR_SUMMARY.md`, the adapter's `cancel_print`
and `send_file` in `src/example/bambulabs_api_research/BAMBULABS_API_ANALYSIS.md`,
and the slicer invocation in `src/TASK2_SUMMARY.md`.  This file is a shallow
embedding of those functions: Redis primitives (`ZADD`, `ZPOPMIN`, `ZRANGE`,
`ZRANK`, `ZREM`, `GET`/`SET`/`DEL`) are modelled over association lists with
Redis's documented ordering (score, then member lexicographically), pydantic
serialisation is modelled as the identity on the task record, and fields of
`PrintTask` that no verified property reads (timestamps, model reference,
material estimate) are elided.  A few implementation files are referenced by
the documents but their code is not part of the repository snapshot; the
definitions standing in for them carry a doc comment starting
`Modelled from the spec:`.
-/

namespace Hacks25

/-- Task lifecycle states, from `TaskStatus` in src/PR_SUMMARY.md §3.3. -/
inductive TaskStatus
  | pending
  | slicing
  | queued
  | printing
  | paused
  | completed
  | failed
  | cancelled
  deriving DecidableEq, Repr

/-- Canonical printer states, from `PrinterStatus` in src/PR_SUMMARY.md §3.3. -/
inductive PrinterStatus
  | offline
  | idle
  | busy
  | error
  | paused
  deriving DecidableEq, Repr

/-- The `PrintTask` aggregate of src/PR_SUMMARY.md §3.1.1, restricted to the
fields the verified properties read.  `estimated_time` is in whole seconds
(the Python `timedelta`); task ids are the string form of the UUID, which is
how Redis keys them. -/
structure PrintTask where
  id : String
  status : TaskStatus
  queue_position : Option Nat
  gcode_path : Option String
  estimated_time : Option Nat
  progress : Nat
  error_message : Option String
  deriving DecidableEq, Repr

/-- The spec's PrintTask invariant: `queue_position` is non-null iff the
status is `QUEUED`. -/
def taskInv (t : PrintTask) : Bool :=
  t.queue_position.isSome == (t.status == TaskStatus.queued)

/-- `PrintTask.mark_failed` of src/PR_SUMMARY.md:记录失败 — sets the terminal
FAILED status and the error message. -/
def mark_failed (t : PrintTask) (e : String) : PrintTask :=
  { t with status := TaskStatus.failed, error_message := some e }

/-- `PrintTask.start_printing` of src/PR_SUMMARY.md: transition to PRINTING. -/
def start_printing (t : PrintTask) : PrintTask :=
  { t with status := TaskStatus.printing }

/-- One member of a Redis sorted set: (member, score). -/
abbrev ZEntry := String × Int

/-- Lexicographic order on character sequences by code point: for the ASCII
task-id strings Redis keys the sorted set with, this is exactly Redis's
byte-string comparison. -/
def bytesLt : List Char → List Char → Bool
  | [], [] => false
  | [], _ :: _ => true
  | _ :: _, [] => false
  | a :: as, b :: bs =>
    if a.toNat < b.toNat then true
    else if b.toNat < a.toNat then false
    else bytesLt as bs

/-- Redis's member comparison: lexicographic on the bytes of the string. -/
def memberLt (a b : String) : Bool :=
  bytesLt a.data b.data

/-- Redis sorted-set order: ascending score, and members with equal score
ordered lexicographically as byte strings. -/
def zle (p q : ZEntry) : Bool :=
  decide (p.2 < q.2) || (decide (p.2 = q.2) && !memberLt q.1 p.1)

/-- Insertion step of the sorted view of a Redis sorted set. -/
def zinsert (p : ZEntry) : List ZEntry → List ZEntry
  | [] => [p]
  | q :: qs => if zle p q then p :: q :: qs else q :: zinsert p qs

/-- The sorted view Redis maintains of a sorted set. -/
def zsort : List ZEntry → List ZEntry
  | [] => []
  | p :: ps => zinsert p (zsort ps)

/-- Redis `ZADD`: adds the member with the score, or updates the score of an
existing member. -/
def zadd (zs : List ZEntry) (m : String) (s : Int) : List ZEntry :=
  if zs.any (fun q => q.1 == m) then
    zs.map (fun q => if q.1 == m then (m, s) else q)
  else
    zs ++ [(m, s)]

/-- Redis `ZRANK`: 0-based rank of the member in the sorted view. -/
def zrank (zs : List ZEntry) (m : String) : Nat :=
  (zsort zs).findIdx (fun q => q.1 == m)

/-- Redis `ZRANGE key 0 4`: the first five members in sorted order, as
`get_queue_status` calls it. -/
def zrange5 (zs : List ZEntry) : List String :=
  ((zsort zs).take 5).map Prod.fst

/-- Redis `ZPOPMIN key 1`: removes and returns the entry with the lowest
score (lowest member lexicographically on ties). -/
def zpopmin (zs : List ZEntry) : Option (ZEntry × List ZEntry) :=
  match zsort zs with
  | [] => none
  | p :: _ => some (p, zs.filter (fun q => !(q.1 == p.1)))

/-- Redis `ZREM`: removes the member, returning how many were removed. -/
def zrem (zs : List ZEntry) (m : String) : Nat × List ZEntry :=
  if zs.any (fun q => q.1 == m) then
    (1, zs.filter (fun q => !(q.1 == m)))
  else
    (0, zs)

/-- Redis `GET` on the task store (`print_task:<id>` keys), with pydantic
deserialisation modelled as the identity. -/
def sget (store : List (String × PrintTask)) (k : String) : Option PrintTask :=
  match store.find? (fun e => e.1 == k) with
  | some e => some e.2
  | none => none

/-- Redis `SET` on the task store. -/
def sset (store : List (String × PrintTask)) (k : String) (v : PrintTask) :
    List (String × PrintTask) :=
  if store.any (fun e => e.1 == k) then
    store.map (fun e => if e.1 == k then (k, v) else e)
  else
    store ++ [(k, v)]

/-- Redis `DELETE` on the task store. -/
def sdel (store : List (String × PrintTask)) (k : String) :
    List (String × PrintTask) :=
  store.filter (fun e => !(e.1 == k))

/-- The durable state `QueueManager` keeps in Redis: the `print_queue`
sorted set and the `print_task:<id>` records. -/
structure QMState where
  zset : List ZEntry
  store : List (String × PrintTask)
  deriving DecidableEq, Repr

/-- `QueueManager.enqueue` of src/PR_SUMMARY.md §6.2: serialises the task
(before any mutation), stores it, `ZADD`s the id with score `-priority`,
computes the 1-based position from `ZRANK`, then sets the in-memory task to
QUEUED at that position.  Returns (new state, mutated task, position). -/
def enqueue (st : QMState) (task : PrintTask) (priority : Int) :
    QMState × PrintTask × Nat :=
  let store' := sset st.store task.id task
  let zset' := zadd st.zset task.id (-priority)
  let position := zrank zset' task.id
  let task' := { task with
    status := TaskStatus.queued, queue_position := some (position + 1) }
  (⟨zset', store'⟩, task', position + 1)

/-- `QueueManager.dequeue` of src/PR_SUMMARY.md §6.2: `ZPOPMIN`, then `GET`
the task record; `none` if the queue is empty or the record is missing; on
success returns the stored task with `queue_position` cleared. -/
def dequeue (st : QMState) : QMState × Option PrintTask :=
  match zpopmin st.zset with
  | none => (st, none)
  | some (p, rest) =>
    match sget st.store p.1 with
    | none => ({ st with zset := rest }, none)
    | some t => ({ st with zset := rest }, some { t with queue_position := none })

/-- The `QueueStatus` record returned by `get_queue_status`. -/
structure QueueStatus where
  total : Nat
  pending_tasks : List PrintTask
  estimated_wait_time : Nat
  deriving DecidableEq, Repr

/-- `QueueManager._estimate_wait_time` of src/PR_SUMMARY.md §6.2: sums the
estimated durations of the given tasks, a missing estimate counting as 0. -/
def estimate_wait_time (tasks : List PrintTask) : Nat :=
  tasks.foldl (fun acc t => acc + t.estimated_time.getD 0) 0

/-- `QueueManager.get_queue_status` of src/PR_SUMMARY.md §6.2: `ZCARD` for
the total, `ZRANGE 0 4` for the first five ids, skipping ids whose record is
missing, and the wait estimate over those fetched tasks only. -/
def get_queue_status (st : QMState) : QueueStatus :=
  let total := st.zset.length
  let ids := zrange5 st.zset
  let tasks := ids.filterMap (fun i => sget st.store i)
  ⟨total, tasks, estimate_wait_time tasks⟩

/-- `QueueManager.remove_task` of src/PR_SUMMARY.md §6.2: `ZREM` the id, and
only when something was removed also delete the task record. -/
def remove_task (st : QMState) (task_id : String) : QMState × Bool :=
  let r := zrem st.zset task_id
  if r.1 ≠ 0 then
    (⟨r.2, sdel st.store task_id⟩, true)
  else
    ({ st with zset := r.2 }, false)

/-- The queue's members in dequeue order, read directly off the sorted set:
the independent, spec-side description of "tasks ahead in the queue". -/
def queueOrder (st : QMState) : List String :=
  (zsort st.zset).map Prod.fst

/-- `BambuAdapter._map_status` of src/PR_SUMMARY.md §5.1: the fixed
`gcode_state` table with `mapping.get(status_code, PrinterStatus.OFFLINE)`. -/
def map_status (status_code : String) : PrinterStatus :=
  if status_code = "IDLE" then PrinterStatus.idle
  else if status_code = "RUNNING" then PrinterStatus.busy
  else if status_code = "PAUSE" then PrinterStatus.paused
  else if status_code = "FINISH" then PrinterStatus.idle
  else if status_code = "FAILED" then PrinterStatus.error
  else PrinterStatus.offline

/-- How one adapter call behaves towards `process_print_queue`: it returns
normally (`ok`), returns `False` (which the scheduler never reads), or
raises.  In the source, `send_file` catches its own errors and returns
`False`, while an unset client makes `start_print` raise. -/
inductive StepBehavior
  | ok
  | returnsFalse
  | raises (msg : String)
  deriving DecidableEq, Repr

/-- Whether a step behaviour raises. -/
def raisesB : StepBehavior → Bool
  | .raises _ => true
  | _ => false

/-- The `try` body of `process_print_queue` in src/PR_SUMMARY.md §6.3 for one
dequeued task: `send_file` then `start_print`, return values ignored; any
raised exception is caught and the task is `mark_failed`; otherwise
`task.start_printing()` runs. -/
def run_task_steps (task : PrintTask) (sendB startB : StepBehavior) : PrintTask :=
  match sendB with
  | .raises m => mark_failed task m
  | _ =>
    match startB with
    | .raises m => mark_failed task m
    | _ => start_printing task

/-- `process_print_queue` of src/PR_SUMMARY.md §6.3: for each available
printer, dequeue one task (stopping at an empty dequeue) and run the
assignment steps, collecting `(printer, final task)` pairs.  The adapter's
behaviour per printer is a parameter. -/
def process_print_queue (st : QMState) (printers : List String)
    (sendB startB : String → StepBehavior) :
    QMState × List (String × PrintTask) :=
  match printers with
  | [] => (st, [])
  | p :: ps =>
    match dequeue st with
    | (st', none) => (st', [])
    | (st', some task) =>
      let t' := run_task_steps task (sendB p) (startB p)
      let r := process_print_queue st' ps sendB startB
      (r.1, (p, t') :: r.2)

/-- `BambuAdapter.cancel_print` of
src/example/bambulabs_api_research/BAMBULABS_API_ANALYSIS.md: returns `False`
when no printer session exists, else forwards `stop_print()`'s acceptance. -/
def cancel_print (printer_connected : Bool) (stop_accepted : Bool) : Bool :=
  if printer_connected then stop_accepted else false

/-- The cancellation path as the repository has it: `cancel_print` talks only
to the printer session and never references the task record, and no function
of the repository waits for a confirming status transition, so invoking it
and then receiving no status message leaves the task exactly as it was. -/
def cancel_and_wait (t : PrintTask) (printer_connected stop_accepted : Bool) :
    Bool × PrintTask :=
  (cancel_print printer_connected stop_accepted, t)

end Hacks25

namespace Hacks25

/-- Worked example state: the empty queue. -/
def emptyQM : QMState := ⟨[], []⟩

/-- Worked example task "a": freshly created, 100 s estimated duration. -/
def taskA : PrintTask :=
  ⟨"a", TaskStatus.pending, none, some "/tmp/a.gcode.3mf", some 100, 0, none⟩

/-- Worked example task "b", identical to task "a" but for the id. -/
def taskB : PrintTask := { taskA with id := "b" }

/-- State after enqueuing task "b" and then task "a", both at priority 0. -/
def exStBA : QMState := (enqueue (enqueue emptyQM taskB 0).1 taskA 0).1

/-- C1: the claim says dequeue is FIFO within a priority band.  Evaluating
the embedded `QueueManager` at the failing input — enqueue task "b" at
priority 0, then task "a" at priority 0, then dequeue — returns task "a",
the task enqueued second: the sorted-set score is `-priority` alone, so
equal-priority members are ordered lexicographically by task id, not by
enqueue time, contradicting the dequeue docstring's FIFO promise. -/
theorem dequeue_equal_priority_not_fifo :
    (dequeue exStBA).2.map PrintTask.id = some "a" ∧
    taskB.id = "b" ∧ taskA.id = "a" := by decide

/-- C3: `_map_status` realises exactly the fixed table IDLE→IDLE,
RUNNING→BUSY, PAUSE→PAUSED, FINISH→IDLE, FAILED→ERROR, and every other
`gcode_state` string maps to OFFLINE; being a total Lean function it yields
exactly one status and cannot throw. -/
theorem map_status_fixed_table_total :
    map_status "IDLE" = PrinterStatus.idle ∧
    map_status "RUNNING" = PrinterStatus.busy ∧
    map_status "PAUSE" = PrinterStatus.paused ∧
    map_status "FINISH" = PrinterStatus.idle ∧
    map_status "FAILED" = PrinterStatus.error ∧
    ∀ s : String, s ≠ "IDLE" → s ≠ "RUNNING" → s ≠ "PAUSE" → s ≠ "FINISH" →
      s ≠ "FAILED" → map_status s = PrinterStatus.offline := by
  refine ⟨by decide, by decide, by decide, by decide, by decide, ?_⟩
  intro s h1 h2 h3 h4 h5
  simp [map_status, h1, h2, h3, h4, h5]

/-- C3 witness: the totality clause of `map_status_fixed_table_total` at the
concrete unrecognised value "UNKNOWN_STATE". -/
theorem map_status_unrecognized_witness :
    map_status "UNKNOWN_STATE" = PrinterStatus.offline :=
  map_status_fixed_table_total.2.2.2.2.2 "UNKNOWN_STATE"
    (by decide) (by decide) (by decide) (by decide) (by decide)

/-- The final status a task gets from one pass of the scheduler's `try` body:
failed exactly when a step raised, printing otherwise — a returned `False` is
never read. -/
theorem run_task_steps_status (task : PrintTask) (sendB startB : StepBehavior) :
    (run_task_steps task sendB startB).status =
      (if raisesB sendB || raisesB startB then TaskStatus.failed
       else TaskStatus.printing) := by
  cases sendB <;> cases startB <;>
    simp [run_task_steps, raisesB, mark_failed, start_printing]

/-- State after enqueuing just task "a" at priority 0. -/
def exStA1 : QMState := (enqueue emptyQM taskA 0).1

/-- C2 counterexample: the claim says a failed `sendFile` returns the task to
the queue in status QUEUED for a retry.  With one queued task and one
available printer, a `sendFile` that raises leaves the task FAILED and the
queue empty (no re-enqueue, no retry budget); and a `sendFile` that reports
failure by returning `False` is ignored outright — the task is transitioned
to PRINTING. -/
theorem send_fail_marks_failed_not_queued :
    (process_print_queue exStA1 ["p1"]
        (fun _ => StepBehavior.raises "upload failed") (fun _ => StepBehavior.ok)).2
      = [("p1", mark_failed taskA "upload failed")] ∧
    (mark_failed taskA "upload failed").status = TaskStatus.failed ∧
    (mark_failed taskA "upload failed").status ≠ TaskStatus.queued ∧
    (process_print_queue exStA1 ["p1"]
        (fun _ => StepBehavior.raises "upload failed") (fun _ => StepBehavior.ok)).1.zset
      = [] ∧
    (process_print_queue exStA1 ["p1"]
        (fun _ => StepBehavior.returnsFalse) (fun _ => StepBehavior.ok)).2
      = [("p1", start_printing taskA)] := by decide

/-- C2 amended: every task `process_print_queue` hands to a printer ends the
tick FAILED when its `sendFile` or `startPrint` step raises and PRINTING
otherwise; it is never returned to the queue in status QUEUED and there is
no retry budget. -/
theorem process_print_queue_failure_terminal :
    ∀ (printers : List String) (st : QMState)
      (sendB startB : String → StepBehavior) (p : String) (t : PrintTask),
      (p, t) ∈ (process_print_queue st printers sendB startB).2 →
      t.status = (if raisesB (sendB p) || raisesB (startB p) then TaskStatus.failed
                  else TaskStatus.printing) := by
  intro printers
  induction printers with
  | nil =>
    intro st sendB startB p t h
    simp [process_print_queue] at h
  | cons q ps ih =>
    intro st sendB startB p t h
    rw [process_print_queue] at h
    rcases hd : dequeue st with ⟨st', otask⟩
    rw [hd] at h
    cases otask with
    | none => simp at h
    | some task =>
      simp only [List.mem_cons] at h
      rcases h with h | h
      · obtain ⟨hp, ht⟩ := Prod.mk.injEq .. ▸ h
        subst hp
        rw [ht]
        exact run_task_steps_status task (sendB p) (startB p)
      · exact ih st' sendB startB p t h

/-- C2 witness: `process_print_queue_failure_terminal` applied to the
concrete one-printer, one-task run whose `sendFile` raises. -/
theorem process_print_queue_failure_terminal_witness :
    (mark_failed taskA "upload failed").status = TaskStatus.failed :=
  process_print_queue_failure_terminal ["p1"] exStA1
    (fun _ => StepBehavior.raises "upload failed") (fun _ => StepBehavior.ok)
    "p1" (mark_failed taskA "upload failed") (by
      have h : (process_print_queue exStA1 ["p1"]
          (fun _ => StepBehavior.raises "upload failed")
          (fun _ => StepBehavior.ok)).2
          = [("p1", mark_failed taskA "upload failed")] := by decide
      rw [h]
      exact List.mem_singleton_self _)

/-- The running-sum fold of `_estimate_wait_time`, with its accumulator made
explicit. -/
theorem foldl_add_getD (tasks : List PrintTask) (n : Nat) :
    tasks.foldl (fun acc t => acc + t.estimated_time.getD 0) n
      = n + (tasks.map (fun t => t.estimated_time.getD 0)).sum := by
  induction tasks generalizing n with
  | nil => simp
  | cons t ts ih =>
    simp only [List.foldl_cons, List.map_cons, List.sum_cons, ih]
    omega

/-- `_estimate_wait_time` is the sum of the given tasks' estimates. -/
theorem estimate_wait_time_eq_sum (tasks : List PrintTask) :
    estimate_wait_time tasks
      = (tasks.map (fun t => t.estimated_time.getD 0)).sum := by
  simpa using foldl_add_getD tasks 0

/-- A task record with the given id, for building example queues. -/
def exTask (i : String) : PrintTask := { taskA with id := i }

/-- Six equal-priority tasks of 100 s each, enqueued as "a" through "f". -/
def exSt6 : QMState :=
  (enqueue (enqueue (enqueue (enqueue (enqueue (enqueue emptyQM
    (exTask "a") 0).1 (exTask "b") 0).1 (exTask "c") 0).1
    (exTask "d") 0).1 (exTask "e") 0).1 (exTask "f") 0).1

/-- C4 counterexample: with six 100-second tasks queued, `get_queue_status`
reports an estimated wait of 500 s — it sums only the five tasks `ZRANGE 0 4`
returns — while the sum over all tasks in the queue is 600 s. -/
theorem queue_status_wait_time_tops_out_at_five :
    (get_queue_status exSt6).total = 6 ∧
    (get_queue_status exSt6).estimated_wait_time = 500 ∧
    (((queueOrder exSt6).filterMap (fun i => sget exSt6.store i)).map
        (fun t => t.estimated_time.getD 0)).sum = 600 ∧
    (500 : Nat) ≠ 600 := by decide

/-- C4 amended: `get_queue_status` reports an estimated wait equal to the sum
of the estimated durations of the first `min 5 total` tasks in queue order
whose records are still in the task store, not of all tasks ahead in the
queue. -/
theorem queue_status_wait_time_spec :
    ∀ st : QMState,
      (get_queue_status st).estimated_wait_time =
        ((((queueOrder st).take 5).filterMap (fun i => sget st.store i)).map
          (fun t => t.estimated_time.getD 0)).sum := by
  intro st
  have h1 : (get_queue_status st).estimated_wait_time
      = estimate_wait_time ((zrange5 st.zset).filterMap (fun i => sget st.store i)) :=
    rfl
  rw [h1, estimate_wait_time_eq_sum]
  have h2 : zrange5 st.zset = (queueOrder st).take 5 := by
    simp [zrange5, queueOrder, List.map_take]
  rw [h2]

/-- C5 counterexample: invoking `cancel_print` on a PRINTING task and then
receiving no status transition at all leaves the task in PRINTING with no
error — it is never marked FAILED with reason CancelUnconfirmed, because no
confirmation wait exists in the repository. -/
theorem cancel_unconfirmed_not_failed :
    (cancel_and_wait { taskA with status := TaskStatus.printing } true true).1 = true ∧
    (cancel_and_wait { taskA with status := TaskStatus.printing } true true).2.status
      = TaskStatus.printing ∧
    (cancel_and_wait { taskA with status := TaskStatus.printing } true true).2.status
      ≠ TaskStatus.failed ∧
    (cancel_and_wait { taskA with status := TaskStatus.printing } true true).2.error_message
      = none := by decide

/-- C5 amended: `cancel_print` only reports whether the stop command was
accepted for transmission (false when disconnected) and never touches the
task record, so absent a subsequent status transition the task stays exactly
as it was — in particular a printing task stays PRINTING. -/
theorem cancel_print_does_not_touch_task :
    ∀ (t : PrintTask) (connected stop_accepted : Bool),
      (cancel_and_wait t connected stop_accepted).2 = t ∧
      cancel_print connected stop_accepted = (connected && stop_accepted) := by
  intro t c s
  exact ⟨rfl, by cases c <;> cases s <;> rfl⟩

/-- The task object the first enqueue of task "a" hands back: QUEUED at
position 1, so it satisfies the PrintTask invariant. -/
def exT1 : PrintTask := (enqueue emptyQM taskA 0).2.1

/-- State after enqueuing task "a" and then re-enqueuing the QUEUED task
object the first enqueue returned — the §4.4 re-enqueue path. -/
def exStRe : QMState := (enqueue (enqueue emptyQM taskA 0).1 exT1 0).1

/-- C8 counterexample: every task fed to the queue satisfied the invariant
(`queue_position` non-null iff QUEUED), yet dequeuing after a re-enqueue of a
QUEUED task returns a task with status QUEUED and null `queue_position`:
`dequeue` clears the position but leaves the stored status untouched, so the
invariant is not preserved. -/
theorem dequeue_breaks_invariant_after_requeue :
    taskInv taskA = true ∧
    taskInv exT1 = true ∧
    (dequeue exStRe).2 = some { exT1 with queue_position := none } ∧
    ({ exT1 with queue_position := none }).status = TaskStatus.queued ∧
    taskInv { exT1 with queue_position := none } = false := by decide

/-- C8 amended: `enqueue` always returns a task satisfying the invariant
(QUEUED with a non-null position), and `dequeue` returns the stored task with
`queue_position` cleared but status unchanged, so the returned task satisfies
the invariant exactly when the stored status was not QUEUED. -/
theorem queue_ops_invariant :
    (∀ (st : QMState) (t : PrintTask) (priority : Int),
        taskInv (enqueue st t priority).2.1 = true) ∧
    (∀ (st st' : QMState) (t : PrintTask),
        dequeue st = (st', some t) →
          t.queue_position = none ∧
          (t.status ≠ TaskStatus.queued → taskInv t = true)) := by
  constructor
  · intro st t priority
    rfl
  · intro st st' t h
    unfold dequeue at h
    split at h
    · simp at h
    · split at h
      · simp at h
      · rename_i t0 hs0
        simp only [Prod.mk.injEq, Option.some.injEq] at h
        obtain ⟨-, ht⟩ := h
        subst ht
        refine ⟨rfl, fun hne => ?_⟩
        simp only [taskInv, Option.isSome_none]
        have hb : (t0.status == TaskStatus.queued) = false :=
          beq_eq_false_iff_ne.mpr (by simpa using hne)
        rw [hb]
        rfl

/-- Example store pairing id "a" with the pre-enqueue snapshot of task "a":
the durable state `dequeue exStA1` leaves behind. -/
def exStA1After : QMState := ⟨[], [("a", taskA)]⟩

/-- C8 witness: the dequeue clause of `queue_ops_invariant` at the concrete
state holding only task "a", whose stored status is PENDING. -/
theorem queue_ops_invariant_witness : taskInv taskA = true :=
  (queue_ops_invariant.2 exStA1 exStA1After taskA (by decide)).2 (by decide)

/-- C10: when `ZPOPMIN` yields a task id whose record is absent from the task
store, `dequeue` answers `none` with the entry already removed from the
sorted set — exactly the answer an empty queue gives, and the popped id is
gone from the remaining queue for good. -/
theorem dequeue_missing_record :
    (∀ (st : QMState) (p : ZEntry) (rest : List ZEntry),
        zpopmin st.zset = some (p, rest) →
        sget st.store p.1 = none →
        dequeue st = ({ st with zset := rest }, none) ∧
          ∀ q ∈ rest, q.1 ≠ p.1) ∧
    (∀ store : List (String × PrintTask),
        dequeue ⟨[], store⟩ = (⟨[], store⟩, none)) := by
  constructor
  · intro st p rest hz hs
    constructor
    · unfold dequeue
      rw [hz]
      dsimp only
      rw [hs]
    · have hrest : rest = st.zset.filter (fun q => !(q.1 == p.1)) := by
        unfold zpopmin at hz
        rcases hzs : zsort st.zset with _ | ⟨r, rs⟩
        · rw [hzs] at hz
          simp at hz
        · rw [hzs] at hz
          simp only [Option.some.injEq, Prod.mk.injEq] at hz
          rw [← hz.1, ← hz.2]
      intro q hq
      rw [hrest] at hq
      have := List.of_mem_filter hq
      simpa using this
  · intro store
    rfl

/-- A queue entry whose task record is missing from the store. -/
def exStGhost : QMState := ⟨[("ghost", 0)], []⟩

/-- C10 witness: `dequeue_missing_record` at the concrete state whose only
queue entry "ghost" has no task record. -/
theorem dequeue_missing_record_witness :
    dequeue exStGhost = ({ exStGhost with zset := [] }, none) :=
  (dequeue_missing_record.1 exStGhost ("ghost", 0) [] (by decide) (by decide)).1

/-- How slicing can fail: subprocess timeout or a non-zero exit. -/
inductive SliceError
  | sliceTimeout
  | curaEngineFailed (stderr : String)
  deriving DecidableEq, Repr

/-- The hard wall-clock timeout of the slicing subprocess, from the
`asyncio.wait_for(process.communicate(), timeout=300)` excerpt in
src/TASK2_SUMMARY.md §3.2. -/
def SLICE_TIMEOUT_SECONDS : Nat := 300

/-- One run of the slicing subprocess, abstracted to what the timeout logic
observes: how long the binary would take, its exit code and stderr. -/
structure SliceRun where
  duration : Nat
  exit_code : Int
  stderr : String
  deriving DecidableEq, Repr

/-- Modelled from the spec: the timeout handler of
`CuraEngineSlicer.slice_model`.  The implementation file
`backend/src/infrastructure/slicing/cura_slicer.py` is not part of the
repository snapshot; src/TASK2_SUMMARY.md §3.2 shows the 300-second
`asyncio.wait_for` but not the exception handler.  Per the spec (§4.1), on
timeout the process tree is killed and the call fails with `SliceTimeout`;
otherwise a non-zero exit fails with the subprocess's stderr (as the
src/example/curaengine_research/README.md excerpt raises).  Returns
(process killed, outcome). -/
def slice_model (run : SliceRun) : Bool × Except SliceError Unit :=
  if SLICE_TIMEOUT_SECONDS < run.duration then
    (true, Except.error SliceError.sliceTimeout)
  else
    (false,
      if run.exit_code ≠ 0 then
        Except.error (SliceError.curaEngineFailed run.stderr)
      else Except.ok ())

/-- A subprocess is left running when it had not finished by itself at the
point `slice_model` returned (its duration exceeds the timeout) and it was
not killed. -/
def process_left_running (run : SliceRun) (killed : Bool) : Bool :=
  decide (SLICE_TIMEOUT_SECONDS < run.duration) && !killed

/-- C6: a slicing run exceeding the 300-second wall-clock timeout is killed
and fails with `SliceTimeout`, and on no exit path of `slice_model` is the
subprocess left running. -/
theorem slice_timeout_kills_process :
    (∀ run : SliceRun, SLICE_TIMEOUT_SECONDS < run.duration →
        (slice_model run).2 = Except.error SliceError.sliceTimeout ∧
        (slice_model run).1 = true) ∧
    (∀ run : SliceRun, process_left_running run (slice_model run).1 = false) := by
  constructor
  · intro run h
    unfold slice_model
    rw [if_pos h]
    exact ⟨rfl, rfl⟩
  · intro run
    unfold slice_model process_left_running
    by_cases h : SLICE_TIMEOUT_SECONDS < run.duration
    · rw [if_pos h]
      simp
    · rw [if_neg h]
      simp [h]

/-- C6 witness: `slice_timeout_kills_process` at a concrete 301-second run. -/
theorem slice_timeout_witness :
    (slice_model ⟨301, 0, ""⟩).2 = Except.error SliceError.sliceTimeout ∧
    (slice_model ⟨301, 0, ""⟩).1 = true :=
  slice_timeout_kills_process.1 ⟨301, 0, ""⟩ (by decide)

/-- Failure of the toolpath-to-container conversion. -/
inductive ConversionError
  | emptyOrUnreadable
  deriving DecidableEq, Repr

/-- The fixed internal archive path of the toolpath payload in the Bambu
container, as `start_print` names it in src/PR_SUMMARY.md §5.1. -/
def payload_path : String := "Metadata/plate_1.gcode"

/-- The generated metadata descriptor entry of the container; its bytes are
irrelevant to the verified properties and abstracted to a placeholder. -/
def content_types_entry : String × List Nat :=
  ("3D/content_types.xml", [60, 63, 120, 109, 108])

/-- Modelled from the spec: `GCodeTo3MFConverter.wrap`.  The implementation
file `backend/src/shared/utils/gcode_to_3mf.py` is not part of the
repository snapshot (src/TEST_COW_PRINT.md only lists it); per the spec
(§4.2) the container is a ZIP-structured archive — modelled as its list of
(internal path, bytes) entries — holding the toolpath plus a generated
metadata manifest. -/
def container (toolpath : List Nat) : List (String × List Nat) :=
  [content_types_entry, (payload_path, toolpath)]

/-- Modelled from the spec: `wrap(toolpathPath) → containerPath`, failing
with `ConversionError` if the toolpath is empty or unreadable (an unreadable
file is one whose bytes cannot be produced at all, so the byte-level model
only sees the empty case). -/
def wrap (toolpath : List Nat) : Except ConversionError (List (String × List Nat)) :=
  if toolpath.isEmpty then Except.error ConversionError.emptyOrUnreadable
  else Except.ok (container toolpath)

/-- Modelled from the spec: unpacking the container — reading back the bytes
stored at the toolpath payload's internal archive path. -/
def unwrap (c : List (String × List Nat)) : Option (List Nat) :=
  match c.find? (fun e => e.1 == payload_path) with
  | some e => some e.2
  | none => none

/-- C7: for a non-empty toolpath, `wrap` succeeds and unpacking the produced
container yields toolpath bytes identical to the input. -/
theorem wrap_unwrap_roundtrip :
    ∀ toolpath : List Nat, toolpath ≠ [] →
      wrap toolpath = Except.ok (container toolpath) ∧
      unwrap (container toolpath) = some toolpath := by
  intro t ht
  cases t with
  | nil => exact absurd rfl ht
  | cons a as => exact ⟨rfl, rfl⟩

/-- C7 witness: `wrap_unwrap_roundtrip` at the concrete two-byte toolpath
[72, 101]. -/
theorem wrap_unwrap_roundtrip_witness :
    wrap [72, 101] = Except.ok (container [72, 101]) ∧
    unwrap (container [72, 101]) = some [72, 101] :=
  wrap_unwrap_roundtrip [72, 101] (by decide)

/-- How an upload ends at the file-transfer layer: clean success, the known
transient post-transfer protocol code (FTP 426) after a near-complete
transfer, or a hard failure. -/
inductive UploadOutcome
  | success
  | transient426
  | hardFail
  deriving DecidableEq, Repr

/-- Modelled from the spec: the FTP-426 handling of `BambuAdapter.send_file`.
The implementation file
`backend/src/infrastructure/printer/adapters/bambu_adapter.py` is not part
of the repository snapshot; src/TEST_COW_PRINT.md documents its behaviour:
on a 426 the adapter checks whether the file actually arrived on the device,
reports success when it is present (426 normally means the transfer had
completed), and treats an inconclusive verification conservatively as
success.  `file_present` is the verification's answer (`none` when the
verification itself fails). -/
def send_file_426 (connected : Bool) (outcome : UploadOutcome)
    (file_present : Option Bool) : Bool :=
  if !connected then false
  else
    match outcome with
    | .success => true
    | .transient426 => file_present.getD true
    | .hardFail => false

/-- C9: on the transient post-transfer protocol code, `send_file` re-verifies
file presence before declaring failure — it reports success when the file is
present (so the task proceeds to `startPrint`), still reports success when
verification is inconclusive, and only declares failure when the file is
verified absent. -/
theorem send_file_reverifies_on_transient_error :
    send_file_426 true UploadOutcome.transient426 (some true) = true ∧
    send_file_426 true UploadOutcome.transient426 none = true ∧
    send_file_426 true UploadOutcome.transient426 (some false) = false ∧
    send_file_426 true UploadOutcome.success (some true) = true :=
  ⟨rfl, rfl, rfl, rfl⟩

end Hacks25
